import Mathlib

/-!
Verification of the reconciliation engine of the beamline controller
(`iocmng_task.py` / `task_base.py`) against its natural-language
specification.  Each Python routine that a claim touches is shallowly
embedded as an executable Lean definition; theorems about those
definitions settle the claims.
-/

set_option maxRecDepth 8192

namespace IocMng

/-! ## Status enumeration maps

`_update_ioc_pvs` (iocmng_task.py lines 1154-1190) and
`_update_service_status` (lines 975-994) map ArgoCD status strings onto
small integer enumerations for channel encoding. -/

/-- The `sync_map` of `_update_ioc_pvs`: `{"Synced": 0, "OutOfSync": 1, "Unknown": 2}`
with `.get(status, 3)`. -/
def iocSyncValue (s : String) : Nat :=
  if s = "Synced" then 0
  else if s = "OutOfSync" then 1
  else if s = "Unknown" then 2
  else 3

/-- The `health_map` of `_update_ioc_pvs` (lines 1163-1172), before the override:
`{"Healthy": 0, "Progressing": 1, "Degraded": 2, "Missing": 3, "Unknown": 4,
"Warning": 5, "Error": 6}` with `.get(status, 4)`. -/
def iocHealthBase (s : String) : Nat :=
  if s = "Healthy" then 0
  else if s = "Progressing" then 1
  else if s = "Degraded" then 2
  else if s = "Missing" then 3
  else if s = "Unknown" then 4
  else if s = "Warning" then 5
  else if s = "Error" then 6
  else 4

/-- Lines 1172-1185 of `_update_ioc_pvs`: the base lookup followed by the
override that forces `Progressing` to 1 and any status outside
`{Healthy, Progressing, Degraded, Missing, Unknown}` to 5 (Warning). -/
def iocHealthValue (s : String) : Nat :=
  if s = "Progressing" then 1
  else if s ≠ "Healthy" ∧ s ≠ "Progressing" ∧ s ≠ "Degraded" ∧
          s ≠ "Missing" ∧ s ≠ "Unknown" then 5
  else iocHealthBase s

/-- The `sync_status_map` of `_update_service_status` (lines 976-981):
`{"Synced": 0, "OutOfSync": 1, "Unknown": 2}` with `.get(sync_status, 3)`. -/
def serviceSyncValue (s : String) : Nat :=
  if s = "Synced" then 0
  else if s = "OutOfSync" then 1
  else if s = "Unknown" then 2
  else 3

/-- The `health_status_map` of `_update_service_status` (lines 984-994):
`{"Healthy": 0, "Progressing": 1, "Suspended": 5, "Degraded": 2,
"Missing": 3, "Unknown": 4}` with `.get(health_status, 4)`. -/
def serviceHealthValue (s : String) : Nat :=
  if s = "Healthy" then 0
  else if s = "Progressing" then 1
  else if s = "Suspended" then 5
  else if s = "Degraded" then 2
  else if s = "Missing" then 3
  else if s = "Unknown" then 4
  else 4

/-! ## Control-action queue and its locks

`_on_control_action` (lines 716-738) and `_on_service_control_action`
(lines 740-762) enqueue `(entity, verb)` pairs; `_process_control_queue`
(lines 1203-1227) and `_process_service_control_queue` (lines 1229-1271)
swap the queue out and process the copy.  The lock each side acquires is
recorded as an explicit identifier. -/

/-- The two `threading.Lock` objects created in `__init__`
(lines 97-98): `self.control_lock` and `self.service_control_lock`. -/
inductive LockId
  | controlLock
  | serviceControlLock
deriving DecidableEq

/-- The callback `_on_control_action` enqueues to `self.control_queue` holding
`self.control_lock` (line 735). -/
def iocEnqueueLock : LockId := .controlLock

/-- The drain `_process_control_queue` swaps `self.control_queue` holding
`self.control_lock` (line 1205). -/
def iocDrainLock : LockId := .controlLock

/-- The callback `_on_service_control_action` enqueues to `self.service_control_queue`
holding `self.control_lock` (line 759). -/
def serviceEnqueueLock : LockId := .controlLock

/-- The drain `_process_service_control_queue` swaps `self.service_control_queue`
holding `self.service_control_lock` (line 1234). -/
def serviceDrainLock : LockId := .serviceControlLock

/-- A queued control action: `(entity_name, verb)`. -/
abbrev Action := String × String

/-- The FIFO queue list (`self.control_queue` / `self.service_control_queue`). -/
structure QueueState where
  queue : List Action
deriving DecidableEq

/-- Python `queue.append((name, action))` under the enqueue lock. -/
def enqueueAction (st : QueueState) (a : Action) : QueueState :=
  ⟨st.queue ++ [a]⟩

/-- A sequence of enqueues. -/
def enqueueAll (st : QueueState) (l : List Action) : QueueState :=
  l.foldl enqueueAction st

/-- The swap step of the drain, done under the drain lock:
`queue_copy = queue[:]; queue.clear()` (lines 1206-1207 / 1235-1236).
Returns the copy to be processed and the queue left behind. -/
def swapOut (st : QueueState) : List Action × QueueState :=
  (st.queue, ⟨[]⟩)

/-- One full drain in which the actions `late` are enqueued concurrently
after the swap, while the copy is dispatched outside the lock.  Returns
the list of dispatched actions and the final queue state. -/
def drainWithLate (st : QueueState) (late : List Action) :
    List Action × QueueState :=
  let (copy, st1) := swapOut st
  (copy, enqueueAll st1 late)

theorem enqueueAll_queue (st : QueueState) (l : List Action) :
    (enqueueAll st l).queue = st.queue ++ l := by
  induction l generalizing st with
  | nil => simp [enqueueAll]
  | cons a t ih =>
      have h : enqueueAll st (a :: t) = enqueueAll (enqueueAction st a) t := rfl
      rw [h, ih]
      simp [enqueueAction]

/-! ## ArgoCD application objects and per-entity status

The poll extracts `status.operationState.phase`, `status.sync.status`,
`status.health.status` and `status.operationState.finishedAt` through
chains of `dict.get` with defaults; optional fields model the absent
keys. -/

/-- The dict `status["operationState"]`: the `phase` and `finishedAt` keys. -/
structure OperationState where
  phase : Option String
  finishedAt : Option String
deriving DecidableEq

/-- The dict `app["status"]`: `operationState`, `sync.status` and `health.status`. -/
structure AppStatusData where
  operationState : Option OperationState
  syncStatus : Option String
  healthStatus : Option String
deriving DecidableEq

/-- An ArgoCD application object as the task reads it. -/
structure App where
  status : Option AppStatusData
deriving DecidableEq

/-- Python `status.get("operationState", {}).get("phase", "Unknown")`. -/
def App.phase (a : App) : String :=
  ((a.status.bind (·.operationState)).bind (·.phase)).getD "Unknown"

/-- Python `status.get("sync", {}).get("status", "Unknown")`. -/
def App.syncStat (a : App) : String :=
  (a.status.bind (·.syncStatus)).getD "Unknown"

/-- Python `status.get("health", {}).get("status", "Unknown")`. -/
def App.healthStat (a : App) : String :=
  (a.status.bind (·.healthStatus)).getD "Unknown"

/-- Python `status.get("operationState", {}).get("finishedAt")`. -/
def App.finishedTs (a : App) : Option String :=
  (a.status.bind (·.operationState)).bind (·.finishedAt)

/-- One entity's status snapshot (`self.ioc_status[name]` /
`self.service_status[name]`). -/
structure EntityStatus where
  appStatus : String
  syncStatus : String
  healthStatus : String
  lastSyncTime : String
  lastHealthChange : String
deriving DecidableEq

/-- The change-detection memory for one entity:
`self.last_health_status.get(name)` and
`self.last_health_change_time.get(name)` (absent key = `none`). -/
structure HealthMem where
  lastHealth : Option String
  lastChangeTime : Option String
deriving DecidableEq

/-- The per-entity channels written by the update routines:
`APP_STATUS`, `SYNC_STATUS`, `HEALTH_STATUS`, `LAST_SYNC`, `LAST_HEALTH`. -/
structure EntityPVs where
  appStatusPV : String
  syncStatusPV : Nat
  healthStatusPV : Nat
  lastSyncPV : String
  lastHealthPV : String
deriving DecidableEq

/-- Timestamp parsing/reformatting is abstracted by a function
`fmt : String → Option String` (`none` models the `except` branch that
keeps the raw string), mirroring `datetime.fromisoformat` + `strftime`
in lines 1106-1115 / 942-951. -/
def applyTsFormat (fmt : String → Option String) (raw : String) : String :=
  (fmt raw).getD raw

/-- Lines 1106-1115 / 942-951: when `finishedAt` is present, store the
parsed-and-reformatted (or raw, on parse failure) timestamp in
`last_sync_time`; otherwise leave the snapshot untouched. -/
def applySyncTime (fmt : String → Option String) (a : App)
    (st : EntityStatus) : EntityStatus :=
  match a.finishedTs with
  | some raw => { st with lastSyncTime := applyTsFormat fmt raw }
  | none => st

@[simp]
theorem applySyncTime_appStatus (fmt : String → Option String) (a : App)
    (st : EntityStatus) : (applySyncTime fmt a st).appStatus = st.appStatus := by
  unfold applySyncTime; cases a.finishedTs <;> rfl

@[simp]
theorem applySyncTime_syncStatus (fmt : String → Option String) (a : App)
    (st : EntityStatus) :
    (applySyncTime fmt a st).syncStatus = st.syncStatus := by
  unfold applySyncTime; cases a.finishedTs <;> rfl

@[simp]
theorem applySyncTime_healthStatus (fmt : String → Option String) (a : App)
    (st : EntityStatus) :
    (applySyncTime fmt a st).healthStatus = st.healthStatus := by
  unfold applySyncTime; cases a.finishedTs <;> rfl

@[simp]
theorem applySyncTime_lastHealthChange (fmt : String → Option String)
    (a : App) (st : EntityStatus) :
    (applySyncTime fmt a st).lastHealthChange = st.lastHealthChange := by
  unfold applySyncTime; cases a.finishedTs <;> rfl

/-- The routine `_update_ioc_status` (lines 1081-1138) acting on one IOC's snapshot
and change-detection memory; `now` is the `datetime.now()` stamp.
Returns the new snapshot and memory. -/
def updateIocStatus (fmt : String → Option String) (app : Option App)
    (st : EntityStatus) (mem : HealthMem) (now : String) :
    EntityStatus × HealthMem :=
  match app with
  | none =>
      ({ st with appStatus := "Missing", syncStatus := "Unknown",
                 healthStatus := "Missing" }, mem)
  | some a =>
      let st2 := applySyncTime fmt a
        { st with appStatus := a.phase, syncStatus := a.syncStat }
      let h := a.healthStat
      let prev := mem.lastHealth.getD "Unknown"
      if h ≠ prev then
        ({ st2 with healthStatus := h, lastHealthChange := now },
         { lastHealth := some h, lastChangeTime := some now })
      else
        ({ st2 with healthStatus := h }, mem)

/-- The routine `_update_ioc_pvs` (lines 1140-1201): push the snapshot onto the
entity's channels through the enumeration maps. -/
def updateIocPVs (st : EntityStatus) : EntityPVs :=
  { appStatusPV := st.appStatus
    syncStatusPV := iocSyncValue st.syncStatus
    healthStatusPV := iocHealthValue st.healthStatus
    lastSyncPV := st.lastSyncTime
    lastHealthPV := st.lastHealthChange }

/-- The routine `_update_ioc_status` followed by the channel push it performs
(both branches call `_update_ioc_pvs`). -/
def updateIocFull (fmt : String → Option String) (app : Option App)
    (st : EntityStatus) (mem : HealthMem) (now : String) :
    EntityStatus × HealthMem × EntityPVs :=
  let (st', mem') := updateIocStatus fmt app st mem now
  (st', mem', updateIocPVs st')

/-- The overall service status computed in lines 996-1002:
`HEALTHY` if the sync and health enumerations are both 0,
`PROGRESSING` if the health enumeration is 1, `OTHER` otherwise. -/
def serviceOverall (sv hv : Nat) : String :=
  if sv = 0 ∧ hv = 0 then "HEALTHY"
  else if hv = 1 then "PROGRESSING"
  else "OTHER"

/-- The routine `_update_service_status` (lines 904-1042) acting on one service's
snapshot, memory and channels.  The not-found branch (lines 918-926)
writes `NOT_FOUND`/3/3 and returns before touching the timestamp
channels; the found branch stores the verbatim strings in the snapshot,
runs change detection, then overwrites `app_status` with the derived
overall status and pushes it with the enumerations. -/
def updateServiceFull (fmt : String → Option String) (app : Option App)
    (st : EntityStatus) (mem : HealthMem) (pvs : EntityPVs) (now : String) :
    EntityStatus × HealthMem × EntityPVs :=
  match app with
  | none =>
      ({ st with appStatus := "NOT_FOUND", syncStatus := "Unknown",
                 healthStatus := "Missing" },
       mem,
       { pvs with appStatusPV := "NOT_FOUND", syncStatusPV := 3,
                  healthStatusPV := 3 })
  | some a =>
      let st2 := applySyncTime fmt a
        { st with appStatus := a.phase, syncStatus := a.syncStat }
      let h := a.healthStat
      let prev := mem.lastHealth.getD "Unknown"
      let stamped :=
        if h ≠ prev then
          ({ st2 with healthStatus := h, lastHealthChange := now },
           HealthMem.mk (some h) (some now))
        else
          ({ st2 with healthStatus := h }, mem)
      let st3 := stamped.1
      let mem' := stamped.2
      let sv := serviceSyncValue a.syncStat
      let hv := serviceHealthValue h
      let overall := serviceOverall sv hv
      let st4 := { st3 with appStatus := overall }
      (st4, mem',
       { appStatusPV := overall, syncStatusPV := sv, healthStatusPV := hv,
         lastSyncPV := st4.lastSyncTime, lastHealthPV := st4.lastHealthChange })

/-! ## Aggregate counters

`_process_cycle` lines 800-826: healthy/progressing counts are
`sum(1 for s in ... if s["health_status"] == ...)`; the other count is
the difference. -/

/-- Python `sum(1 for s in statuses if s["health_status"] == "Healthy")`. -/
def healthyCount (l : List EntityStatus) : Int :=
  (l.countP (fun s => s.healthStatus == "Healthy") : Int)

/-- Python `sum(1 for s in statuses if s["health_status"] == "Progressing")`. -/
def progressingCount (l : List EntityStatus) : Int :=
  (l.countP (fun s => s.healthStatus == "Progressing") : Int)

/-- Python `total_iocs = len(self.ioc_status)`. -/
def totalCount (l : List EntityStatus) : Int := (l.length : Int)

/-- Python `other_count = total - healthy - progressing`. -/
def otherCount (l : List EntityStatus) : Int :=
  totalCount l - healthyCount l - progressingCount l

/-- The remaining entities counted directly: neither `Healthy` nor
`Progressing`. -/
def restCount (l : List EntityStatus) : Int :=
  (l.countP (fun s =>
    !(s.healthStatus == "Healthy") && !(s.healthStatus == "Progressing")) : Int)

theorem otherCount_eq_restCount (l : List EntityStatus) :
    otherCount l = restCount l := by
  induction l with
  | nil => simp [otherCount, restCount, totalCount, healthyCount, progressingCount]
  | cons s t ih =>
      simp only [otherCount, restCount, totalCount, healthyCount,
        progressingCount, List.countP_cons, List.length_cons] at *
      by_cases h1 : s.healthStatus = "Healthy" <;>
        by_cases h2 : s.healthStatus = "Progressing" <;>
          simp [h1, h2] at * <;> omega

/-! ## Archiver remediation governor

`_update_archiver_status`, auto-restart block (lines 1508-1571). -/

/-- The archiver remediation configuration and state:
`archiver_threshold_restart`, `archiver_wait_restart_min` (minutes),
`archiver_app_name`, `archiver_last_restart_time` (seconds). -/
structure ArchiverState where
  thresholdRestart : Option Int
  waitRestartMin : Option Int
  appName : Option String
  lastRestartTime : Option Int
deriving DecidableEq

/-- Python truthiness of the optional application name
(`and self.archiver_app_name` at line 1513). -/
def truthyStr : Option String → Bool
  | some s => s != ""
  | none => false

/-- The auto-restart block (lines 1509-1557): acts only when both bounds
are configured and the app name is truthy; `can_restart` requires no
previous restart or `now - last >= wait * 60`; the restart fires only
when additionally `connected < threshold` and `disconnected > threshold`
(strict), and then the restart time is recorded.  Returns the restarted
application name (or `none`) and the new state. -/
def archiverAutoRestart (st : ArchiverState) (now connected disconnected : Int) :
    Option String × ArchiverState :=
  match st.thresholdRestart, st.waitRestartMin with
  | some thr, some wait =>
      if truthyStr st.appName then
        let canRestart :=
          match st.lastRestartTime with
          | none => true
          | some last => decide (now - last ≥ wait * 60)
        if canRestart && decide (connected < thr) && decide (disconnected > thr) then
          (st.appName, { st with lastRestartTime := some now })
        else (none, st)
      else (none, st)
  | _, _ => (none, st)

/-! ## Command channels and the RESTART verb handler -/

/-- Remote mutation calls attempted against the ArgoCD API. -/
inductive K8sCall
  | deleteApp (name : String)
  | patchSyncApp (name : String)
deriving DecidableEq

/-- Which remote calls raise `ApiException` in a given run. -/
structure RemoteBehavior where
  deleteApiError : Bool
  patchApiError : Bool

/-- An `ApiException` payload. -/
structure ApiErr where
  msg : String
deriving DecidableEq

/-- The call `delete_namespaced_custom_object`: one call appended to the trace;
raises iff the behavior says so. -/
def callDelete (b : RemoteBehavior) (n : String) (tr : List K8sCall) :
    Except ApiErr Unit × List K8sCall :=
  ((if b.deleteApiError then .error ⟨"ApiException"⟩ else .ok ()),
   tr ++ [K8sCall.deleteApp n])

/-- The call `patch_namespaced_custom_object` with the sync operation body. -/
def callPatchSync (b : RemoteBehavior) (n : String) (tr : List K8sCall) :
    Except ApiErr Unit × List K8sCall :=
  ((if b.patchApiError then .error ⟨"ApiException"⟩ else .ok ()),
   tr ++ [K8sCall.patchSyncApp n])

/-- The handler `_restart_ioc` (lines 1322-1366): the inner `try` deletes the
application and catches `ApiException` with a warning (lines 1340-1343);
the sync patch then runs unconditionally; the outer `except ApiException`
(lines 1365-1366) swallows a patch failure.  Returns the outcome seen by
the caller and the call trace. -/
def restartIoc (b : RemoteBehavior) (n : String) (tr : List K8sCall) :
    Except ApiErr Unit × List K8sCall :=
  let deleted := callDelete b n tr
  let tr1 := deleted.2
  let patched := callPatchSync b n tr1
  let tr2 := patched.2
  match patched.1 with
  | .ok _ => (.ok (), tr2)
  | .error _ => (.ok (), tr2)

/-- A momentary command channel plus the control queue it feeds. -/
structure ButtonState where
  channel : Bool
  queue : List Action
deriving DecidableEq

/-- An external write of `value` to a command channel followed by its
`_on_control_action` callback (lines 716-738): the write puts `value` on
the channel; when truthy, the callback resets the channel to false
(line 730) and appends `(ioc, action)` under the control lock
(lines 735-736). -/
def writeControlChannel (st : ButtonState) (ioc action : String)
    (value : Bool) : ButtonState :=
  let st1 := { st with channel := value }
  if value then
    { st1 with channel := false, queue := st1.queue ++ [(ioc, action)] }
  else st1

/-! ## Task lifecycle channels and the cycle boundary -/

/-- The task-global `STATUS` (mbbi) and `MESSAGE` (string) channels. -/
structure TaskChannels where
  statusPV : Nat
  messagePV : String
deriving DecidableEq

/-- Python `str.upper()` on the character list of the string. -/
def pyUpper (s : String) : String := ⟨s.data.map Char.toUpper⟩

/-- The `set_status` routine (task_base.py lines 336-355): uppercase the
argument, then `{"INIT": 0, "RUN": 1, "PAUSED": 2, "END": 3, "ERROR": 4}`;
unmapped strings leave the channel unchanged. -/
def setStatus (ch : TaskChannels) (s : String) : TaskChannels :=
  let u := pyUpper s
  if u = "INIT" then { ch with statusPV := 0 }
  else if u = "RUN" then { ch with statusPV := 1 }
  else if u = "PAUSED" then { ch with statusPV := 2 }
  else if u = "END" then { ch with statusPV := 3 }
  else if u = "ERROR" then { ch with statusPV := 4 }
  else ch

/-- The routine `set_message` (task_base.py lines 357-368): `str(message)[:39]`
(EPICS string limit). -/
def setMessage (ch : TaskChannels) (m : String) : TaskChannels :=
  { ch with messagePV := m.take 39 }

/-- The `try/except` boundary of `_process_cycle` (lines 785-867): a
cycle body that raises with text `e` results in
`set_status("ERROR"); set_message(f"Error: ...")` (lines 864-867); a
normal body yields its own channel updates.  The boundary is total -
nothing propagates out of the cycle. -/
def processCycleBoundary (body : Except String TaskChannels)
    (ch : TaskChannels) : TaskChannels :=
  match body with
  | .ok ch' => ch'
  | .error e => setMessage (setStatus ch "ERROR") ("Error: " ++ e)

/-- The `run` loop (lines 764-783) over a finite schedule of cycle-body
outcomes: every scheduled cycle goes through the boundary; the second
component counts the cycles attempted. -/
def runLoop (bodies : List (Except String TaskChannels))
    (ch : TaskChannels) : TaskChannels × Nat :=
  bodies.foldl
    (fun acc b => (processCycleBoundary b acc.1, acc.2 + 1)) (ch, 0)

/-! ## Channel-name segment normalization and truncation

`_create_ioc_specific_pvs` (lines 513-532) and
`_create_service_specific_pvs` (lines 606-623); the entity name is
handled as its character list. -/

/-- Python `name.upper().replace("-", "_")` (lines 515 / 608). -/
def normalizeSegment (name : List Char) : List Char :=
  (name.map Char.toUpper).map (fun c => if c = '-' then '_' else c)

/-- Python `seg[:k]` for an `int` bound `k`: a negative bound counts
from the end of the string. -/
def pyTake (seg : List Char) (k : Int) : List Char :=
  if 0 ≤ k then seg.take k.toNat
  else seg.take (seg.length - (-k).toNat)

/-- The budget `max_record_length - prefix_overhead - longest_suffix` with
`max_record_length = 60`, `prefix_overhead = len(self.pv_prefix) + 1`
and `longest_suffix = len("_LAST_HEALTH")` (lines 520-523). -/
def maxSegmentLen (pfxLen : Nat) : Int :=
  (60 : Int) - ((pfxLen : Int) + 1) - (("_LAST_HEALTH".length : Nat) : Int)

/-- Lines 526-528: truncate the segment when it exceeds the budget. -/
def truncSegment (pfxLen : Nat) (seg : List Char) : List Char :=
  if (seg.length : Int) > maxSegmentLen pfxLen then
    pyTake seg (maxSegmentLen pfxLen)
  else seg

/-! ## Claim theorems -/

/-- C1: one drain of a control-action queue dispatches each enqueued
(entity, verb) pair exactly once and leaves in the queue exactly the
actions enqueued after the swap (never lost, never double-processed);
the IOC enqueue and drain both take `control_lock`, but the service
enqueue path takes `control_lock` while the service drain swaps under
`service_control_lock` — so the same-lock part of the claim is violated
by the service path (the code slip the claim exposes). -/
theorem C1_queue_drain (pre late : List Action) :
    (drainWithLate (enqueueAll ⟨[]⟩ pre) late).1 = pre ∧
    (∀ a : Action,
      (drainWithLate (enqueueAll ⟨[]⟩ pre) late).1.count a = pre.count a) ∧
    (drainWithLate (enqueueAll ⟨[]⟩ pre) late).2.queue = late ∧
    iocEnqueueLock = iocDrainLock ∧
    serviceEnqueueLock ≠ serviceDrainLock := by
  have h1 : (drainWithLate (enqueueAll ⟨[]⟩ pre) late).1 = pre := by
    simp [drainWithLate, swapOut, enqueueAll_queue]
  refine ⟨h1, fun a => by rw [h1], ?_, rfl, by decide⟩
  simp [drainWithLate, swapOut, enqueueAll_queue]

/-- C3 counterexample: the claim demands that every unmapped health
string is encoded as 5, but `_update_service_status` encodes the
unmapped string "Warning" as 4 (its `health_status_map` has default 4
and an explicit `Suspended: 5` entry instead). -/
theorem C3_counterexample :
    serviceHealthValue "Warning" = 4 ∧ serviceHealthValue "Warning" ≠ 5 := by
  decide

/-- C3 (amended): both sync encodings are total with Synced=0,
OutOfSync=1, Unknown=2 and default 3; the IOC health encoding is total
with Healthy=0, Progressing=1, Degraded=2, Missing=3, Unknown=4 and
default 5 (the override forces Warning, Error and every unmapped string
to 5); the service health encoding is total with the same five named
values plus Suspended=5 and default 4.  Every input maps to a defined
integer in range, so no remote status string can make the encoding
raise. -/
theorem C3_total_enum_maps (s : String) :
    (iocSyncValue "Synced" = 0 ∧ iocSyncValue "OutOfSync" = 1 ∧
     iocSyncValue "Unknown" = 2) ∧
    (s ≠ "Synced" → s ≠ "OutOfSync" → s ≠ "Unknown" → iocSyncValue s = 3) ∧
    (serviceSyncValue "Synced" = 0 ∧ serviceSyncValue "OutOfSync" = 1 ∧
     serviceSyncValue "Unknown" = 2) ∧
    (s ≠ "Synced" → s ≠ "OutOfSync" → s ≠ "Unknown" →
      serviceSyncValue s = 3) ∧
    (iocHealthValue "Healthy" = 0 ∧ iocHealthValue "Progressing" = 1 ∧
     iocHealthValue "Degraded" = 2 ∧ iocHealthValue "Missing" = 3 ∧
     iocHealthValue "Unknown" = 4) ∧
    (s ≠ "Healthy" → s ≠ "Progressing" → s ≠ "Degraded" → s ≠ "Missing" →
     s ≠ "Unknown" → iocHealthValue s = 5) ∧
    (serviceHealthValue "Healthy" = 0 ∧ serviceHealthValue "Progressing" = 1 ∧
     serviceHealthValue "Degraded" = 2 ∧ serviceHealthValue "Missing" = 3 ∧
     serviceHealthValue "Unknown" = 4 ∧ serviceHealthValue "Suspended" = 5) ∧
    (s ≠ "Healthy" → s ≠ "Progressing" → s ≠ "Suspended" → s ≠ "Degraded" →
     s ≠ "Missing" → s ≠ "Unknown" → serviceHealthValue s = 4) ∧
    iocSyncValue s ≤ 3 ∧ serviceSyncValue s ≤ 3 ∧
    iocHealthValue s ≤ 6 ∧ serviceHealthValue s ≤ 5 := by
  refine ⟨by decide, ?_, by decide, ?_, by decide, ?_, by decide, ?_,
          ?_, ?_, ?_, ?_⟩
  · intro h1 h2 h3; simp [iocSyncValue, h1, h2, h3]
  · intro h1 h2 h3; simp [serviceSyncValue, h1, h2, h3]
  · intro h1 h2 h3 h4 h5
    simp [iocHealthValue, h1, h2, h3, h4, h5]
  · intro h1 h2 h3 h4 h5 h6
    simp [serviceHealthValue, h1, h2, h3, h4, h5, h6]
  · unfold iocSyncValue; split_ifs <;> omega
  · unfold serviceSyncValue; split_ifs <;> omega
  · unfold iocHealthValue iocHealthBase; split_ifs <;> omega
  · unfold serviceHealthValue; split_ifs <;> omega

/-- C3 witness: the amended mapping evaluated at the unmapped string
"Flapping": 5 on the IOC path, 4 on the service path. -/
theorem C3_total_enum_maps_witness :
    iocHealthValue "Flapping" = 5 ∧ serviceHealthValue "Flapping" = 4 := by
  have h := C3_total_enum_maps "Flapping"
  exact ⟨h.2.2.2.2.2.1 (by decide) (by decide) (by decide) (by decide)
           (by decide),
         h.2.2.2.2.2.2.2.1 (by decide) (by decide) (by decide) (by decide)
           (by decide) (by decide)⟩

/-- C4 counterexample: a tracked service whose application is absent
from the poll listing gets `app_status = "NOT_FOUND"`, not `"Missing"`
as the claim states for every tracked entity. -/
theorem C4_counterexample :
    (updateServiceFull (fun _ => none) none
        ⟨"Unknown", "Unknown", "Unknown", "Never", "Never"⟩
        ⟨none, none⟩ ⟨"Unknown", 2, 4, "Never", "Never"⟩ "t1").1.appStatus
      = "NOT_FOUND" ∧ ("NOT_FOUND" : String) ≠ "Missing" := by
  decide

/-- C4 (amended): an IOC missing from the poll listing gets the snapshot
`{app_status: "Missing", sync_status: "Unknown", health_status:
"Missing"}`; a missing service gets `{app_status: "NOT_FOUND",
sync_status: "Unknown", health_status: "Missing"}`; in both cases the
entity is counted in the aggregate "other" counter (it increments the
other count of any population by exactly one). -/
theorem C4_missing_entity (fmt : String → Option String)
    (st : EntityStatus) (mem : HealthMem) (pvs : EntityPVs) (now : String)
    (l : List EntityStatus) :
    ((updateIocFull fmt none st mem now).1.appStatus = "Missing" ∧
     (updateIocFull fmt none st mem now).1.syncStatus = "Unknown" ∧
     (updateIocFull fmt none st mem now).1.healthStatus = "Missing") ∧
    ((updateServiceFull fmt none st mem pvs now).1.appStatus = "NOT_FOUND" ∧
     (updateServiceFull fmt none st mem pvs now).1.syncStatus = "Unknown" ∧
     (updateServiceFull fmt none st mem pvs now).1.healthStatus = "Missing") ∧
    otherCount ((updateIocFull fmt none st mem now).1 :: l)
      = otherCount l + 1 ∧
    otherCount ((updateServiceFull fmt none st mem pvs now).1 :: l)
      = otherCount l + 1 := by
  refine ⟨⟨rfl, rfl, rfl⟩, ⟨rfl, rfl, rfl⟩, ?_, ?_⟩ <;>
    rw [otherCount_eq_restCount, otherCount_eq_restCount] <;>
      simp [restCount, List.countP_cons, updateIocFull, updateIocStatus,
        updateServiceFull]

/-- C10: after the counter computation of `_process_cycle`, the healthy,
progressing and other counts are non-negative, sum to the total for both
entity classes, an entity is counted healthy iff its health status is
"Healthy", progressing iff "Progressing", and the other count equals the
direct count of the remaining entities. -/
theorem C10_counter_invariant (iocs services : List EntityStatus) :
    (healthyCount iocs + progressingCount iocs + otherCount iocs
        = totalCount iocs ∧
     0 ≤ healthyCount iocs ∧ 0 ≤ progressingCount iocs ∧
     0 ≤ otherCount iocs ∧ otherCount iocs = restCount iocs) ∧
    (healthyCount services + progressingCount services + otherCount services
        = totalCount services ∧
     0 ≤ healthyCount services ∧ 0 ≤ progressingCount services ∧
     0 ≤ otherCount services ∧ otherCount services = restCount services) := by
  have key : ∀ l : List EntityStatus,
      healthyCount l + progressingCount l + otherCount l = totalCount l ∧
      0 ≤ healthyCount l ∧ 0 ≤ progressingCount l ∧
      0 ≤ otherCount l ∧ otherCount l = restCount l := by
    intro l
    refine ⟨by unfold otherCount; ring, ?_, ?_, ?_, otherCount_eq_restCount l⟩
    · exact Int.ofNat_nonneg _
    · exact Int.ofNat_nonneg _
    · rw [otherCount_eq_restCount]; exact Int.ofNat_nonneg _
  exact ⟨key iocs, key services⟩

/-- C2: the archiver remediation governor is disabled whenever the
restart threshold or the cooldown window is unconfigured (no restart,
state untouched); with both configured, a configured application name,
and a qualifying observation (`connected < threshold` and
`disconnected > threshold`, strict) it restarts exactly the archiver's
own application and records the timestamp when no restart has ever
occurred, refuses a second qualifying observation inside the cooldown
window, and fires again once the window has elapsed — so two qualifying
observations within one cooldown window trigger exactly one restart. -/
theorem C2_archiver_governor
    (thr wait now now2 now3 c d c2 d2 : Int) (a : String)
    (st0 : ArchiverState) (n0 c0 d0 : Int)
    (hdis : st0.thresholdRestart = none ∨ st0.waitRestartMin = none)
    (ha : a ≠ "")
    (hc : c < thr) (hd : d > thr)
    (hwin : now2 - now < wait * 60)
    (hc2 : c2 < thr) (hd2 : d2 > thr)
    (helapsed : now3 - now ≥ wait * 60) :
    archiverAutoRestart st0 n0 c0 d0 = (none, st0) ∧
    archiverAutoRestart ⟨some thr, some wait, some a, none⟩ now c d
      = (some a, ⟨some thr, some wait, some a, some now⟩) ∧
    archiverAutoRestart ⟨some thr, some wait, some a, some now⟩ now2 c2 d2
      = (none, ⟨some thr, some wait, some a, some now⟩) ∧
    archiverAutoRestart ⟨some thr, some wait, some a, some now⟩ now3 c2 d2
      = (some a, ⟨some thr, some wait, some a, some now3⟩) := by
  refine ⟨?_, ?_, ?_, ?_⟩
  · rcases st0 with ⟨t, w, nm, l⟩
    rcases hdis with h | h
    · simp only at h; subst h
      cases w <;> rfl
    · simp only at h; subst h
      cases t <;> rfl
  · simp [archiverAutoRestart, truthyStr, ha, hc, hd]
  · have hlt : ¬ (now2 - now ≥ wait * 60) := by omega
    simp [archiverAutoRestart, truthyStr, ha, hlt]
  · simp [archiverAutoRestart, truthyStr, ha, hc2, hd2, helapsed]

/-- C2 witness: threshold 5, cooldown 10 minutes; observation
(connected 2, disconnected 8) at time 0 restarts and records the
timestamp; the same observation 60 seconds later is refused; at 600
seconds the governor may act again; and a state with no threshold never
acts. -/
theorem C2_archiver_governor_witness :
    archiverAutoRestart ⟨none, some 10, some "sparc-archiver", none⟩ 0 2 8
      = (none, ⟨none, some 10, some "sparc-archiver", none⟩) ∧
    archiverAutoRestart ⟨some 5, some 10, some "sparc-archiver", none⟩ 0 2 8
      = (some "sparc-archiver",
         ⟨some 5, some 10, some "sparc-archiver", some 0⟩) ∧
    archiverAutoRestart ⟨some 5, some 10, some "sparc-archiver", some 0⟩ 60 2 8
      = (none, ⟨some 5, some 10, some "sparc-archiver", some 0⟩) ∧
    archiverAutoRestart ⟨some 5, some 10, some "sparc-archiver", some 0⟩ 600 2 8
      = (some "sparc-archiver",
         ⟨some 5, some 10, some "sparc-archiver", some 600⟩) :=
  C2_archiver_governor 5 10 0 60 600 2 8 2 8 "sparc-archiver"
    ⟨none, some 10, some "sparc-archiver", none⟩ 0 2 8
    (Or.inl rfl) (by decide) (by decide) (by decide) (by decide)
    (by decide) (by decide) (by decide)

/-- C5 counterexample: an IOC whose remembered previous health is
"Healthy" and whose application disappears from the listing gets its
snapshot health set to "Missing" — a newly polled value that differs
from the remembered one — yet `last_health_change` keeps its old stamp
"t0" instead of being re-stamped with the current time "t1" (the
missing branch skips change detection), refuting the claimed
if-and-only-if. -/
theorem C5_counterexample :
    ((updateIocStatus (fun _ => none) none
        ⟨"Running", "Synced", "Healthy", "Never", "t0"⟩
        ⟨some "Healthy", some "t0"⟩ "t1").1.healthStatus = "Missing") ∧
    ("Missing" : String) ≠ "Healthy" ∧
    ((updateIocStatus (fun _ => none) none
        ⟨"Running", "Synced", "Healthy", "Never", "t0"⟩
        ⟨some "Healthy", some "t0"⟩ "t1").1.lastHealthChange = "t0") ∧
    ("t0" : String) ≠ "t1" := by
  decide

/-- C5 (amended): when the entity's application is found, the
`last_health_change` stamp is re-stamped with the locally generated
current time iff the extracted health differs from the remembered
previous value (defaulting to "Unknown"), for both entity classes;
polling the same application again immediately never re-stamps; but a
cycle in which the application is missing from the listing never
re-stamps and never updates the remembered value, even though the
snapshot health becomes "Missing". -/
theorem C5_health_change_stamp (fmt : String → Option String) (a : App)
    (st : EntityStatus) (mem : HealthMem) (pvs : EntityPVs)
    (now now2 : String) :
    ((a.healthStat ≠ mem.lastHealth.getD "Unknown" →
        (updateIocStatus fmt (some a) st mem now).1.lastHealthChange = now ∧
        (updateIocStatus fmt (some a) st mem now).2
          = ⟨some a.healthStat, some now⟩) ∧
     (a.healthStat = mem.lastHealth.getD "Unknown" →
        (updateIocStatus fmt (some a) st mem now).1.lastHealthChange
          = st.lastHealthChange ∧
        (updateIocStatus fmt (some a) st mem now).2 = mem) ∧
     ((updateIocStatus fmt (some a)
          (updateIocStatus fmt (some a) st mem now).1
          (updateIocStatus fmt (some a) st mem now).2 now2).1.lastHealthChange
        = (updateIocStatus fmt (some a) st mem now).1.lastHealthChange) ∧
     (updateIocStatus fmt none st mem now).1.lastHealthChange
        = st.lastHealthChange ∧
     (updateIocStatus fmt none st mem now).2 = mem) ∧
    ((a.healthStat ≠ mem.lastHealth.getD "Unknown" →
        (updateServiceFull fmt (some a) st mem pvs now).1.lastHealthChange
          = now ∧
        (updateServiceFull fmt (some a) st mem pvs now).2.1
          = ⟨some a.healthStat, some now⟩) ∧
     (a.healthStat = mem.lastHealth.getD "Unknown" →
        (updateServiceFull fmt (some a) st mem pvs now).1.lastHealthChange
          = st.lastHealthChange ∧
        (updateServiceFull fmt (some a) st mem pvs now).2.1 = mem) ∧
     ((updateServiceFull fmt (some a)
          (updateServiceFull fmt (some a) st mem pvs now).1
          (updateServiceFull fmt (some a) st mem pvs now).2.1
          (updateServiceFull fmt (some a) st mem pvs now).2.2
          now2).1.lastHealthChange
        = (updateServiceFull fmt (some a) st mem pvs now).1.lastHealthChange) ∧
     (updateServiceFull fmt none st mem pvs now).1.lastHealthChange
        = st.lastHealthChange ∧
     (updateServiceFull fmt none st mem pvs now).2.1 = mem) := by
  by_cases hch : a.healthStat = mem.lastHealth.getD "Unknown"
  · constructor
    · refine ⟨fun h => absurd hch h, fun _ => ?_, ?_, rfl, rfl⟩
      · simp [updateIocStatus, hch]
      · simp [updateIocStatus, hch]
    · refine ⟨fun h => absurd hch h, fun _ => ?_, ?_, rfl, rfl⟩
      · simp [updateServiceFull, hch]
      · simp [updateServiceFull, hch]
  · constructor
    · refine ⟨fun _ => ?_, fun h => absurd h hch, ?_, rfl, rfl⟩
      · simp [updateIocStatus, hch]
      · simp [updateIocStatus, hch]
    · refine ⟨fun _ => ?_, fun h => absurd h hch, ?_, rfl, rfl⟩
      · simp [updateServiceFull, hch]
      · simp [updateServiceFull, hch]

/-- C5 witness: a service and an IOC whose remembered health is
"Healthy" and whose application reports "Degraded" get re-stamped with
the current time "t1". -/
theorem C5_health_change_stamp_witness :
    (updateIocStatus (fun _ => none)
        (some ⟨some ⟨some ⟨some "Running", none⟩, some "Synced",
               some "Degraded"⟩⟩)
        ⟨"Running", "Synced", "Healthy", "Never", "t0"⟩
        ⟨some "Healthy", some "t0"⟩ "t1").1.lastHealthChange = "t1" ∧
    (updateServiceFull (fun _ => none)
        (some ⟨some ⟨some ⟨some "Running", none⟩, some "Synced",
               some "Degraded"⟩⟩)
        ⟨"Running", "Synced", "Healthy", "Never", "t0"⟩
        ⟨some "Healthy", some "t0"⟩ ⟨"Unknown", 2, 4, "Never", "Never"⟩
        "t1").1.lastHealthChange = "t1" := by
  have h := C5_health_change_stamp (fun _ => none)
    ⟨some ⟨some ⟨some "Running", none⟩, some "Synced", some "Degraded"⟩⟩
    ⟨"Running", "Synced", "Healthy", "Never", "t0"⟩
    ⟨some "Healthy", some "t0"⟩ ⟨"Unknown", 2, 4, "Never", "Never"⟩
    "t1" "t2"
  exact ⟨(h.1.1 (by decide)).1, (h.2.1 (by decide)).1⟩

/-- C6: writing true to an entity's RESTART command channel resets the
channel to false immediately and enqueues exactly one (entity, RESTART)
action; processing it performs exactly one delete attempt followed by
exactly one synchronize patch — in that order, unconditionally, whatever
ApiException the delete or the patch raises — and the verb handler never
raises past its call site. -/
theorem C6_restart_verb (st : ButtonState) (ioc n : String)
    (b : RemoteBehavior) (tr : List K8sCall) :
    writeControlChannel st ioc "RESTART" true
      = ⟨false, st.queue ++ [(ioc, "RESTART")]⟩ ∧
    (restartIoc b n tr).2
      = tr ++ [K8sCall.deleteApp n, K8sCall.patchSyncApp n] ∧
    (restartIoc b n tr).2.count (K8sCall.deleteApp n)
      = tr.count (K8sCall.deleteApp n) + 1 ∧
    (restartIoc b n tr).2.count (K8sCall.patchSyncApp n)
      = tr.count (K8sCall.patchSyncApp n) + 1 ∧
    (restartIoc b n tr).1 = Except.ok () := by
  have htr : (restartIoc b n tr).2
      = tr ++ [K8sCall.deleteApp n, K8sCall.patchSyncApp n] := by
    cases hb : b.patchApiError <;>
      simp [restartIoc, callDelete, callPatchSync, hb]
  refine ⟨by simp [writeControlChannel], htr, ?_, ?_, ?_⟩
  · rw [htr]; simp [List.count_append, List.count_cons]
  · rw [htr]; simp [List.count_append, List.count_cons]
  · cases hb : b.patchApiError <;>
      simp [restartIoc, callDelete, callPatchSync, hb]

theorem runLoop_attempts (bodies : List (Except String TaskChannels))
    (ch : TaskChannels) : (runLoop bodies ch).2 = bodies.length := by
  have go : ∀ (bs : List (Except String TaskChannels))
      (c : TaskChannels) (k : Nat),
      (bs.foldl (fun acc b => (processCycleBoundary b acc.1, acc.2 + 1))
        (c, k)).2 = k + bs.length := by
    intro bs
    induction bs with
    | nil => intro c k; simp
    | cons b t ih =>
        intro c k
        rw [List.foldl_cons, ih]
        simp
        omega
  rw [runLoop, go]
  simp

/-- C7 counterexample: an exception with text "boom" caught at the cycle
boundary leaves the message channel holding "Error: boom", which is not
the exception text itself. -/
theorem C7_counterexample :
    (processCycleBoundary (Except.error "boom") ⟨1, "ok"⟩).messagePV
      = "Error: boom" ∧ ("Error: boom" : String) ≠ "boom" := by
  refine ⟨?_, by decide⟩
  simp only [processCycleBoundary, setMessage, setStatus, pyUpper]
  decide

/-- C7 (amended): every exception raised inside a reconciliation cycle
and not handled closer to its source is caught at the cycle boundary:
the lifecycle status channel is set to ERROR (enumeration value 4) and
the message channel is set to "Error: " followed by the exception text,
truncated to the 39-character EPICS string limit; the boundary is total
(a normal cycle passes through unchanged), and the run loop attempts
every scheduled cycle — those after the failing one included. -/
theorem C7_cycle_error_boundary (e : String) (ch ok1 : TaskChannels)
    (pre post : List (Except String TaskChannels)) :
    (processCycleBoundary (Except.error e) ch).statusPV = 4 ∧
    (processCycleBoundary (Except.error e) ch).messagePV
      = ("Error: " ++ e).take 39 ∧
    processCycleBoundary (Except.ok ok1) ch = ok1 ∧
    (runLoop (pre ++ Except.error e :: post) ch).2
      = pre.length + 1 + post.length := by
  refine ⟨?_, ?_, rfl, ?_⟩
  · simp [processCycleBoundary, setMessage, setStatus, pyUpper]
  · simp [processCycleBoundary, setMessage, setStatus, pyUpper]
  · rw [runLoop_attempts]
    simp
    omega

/-- C8: the normalized entity segment (upper-cased, hyphens to
underscores) is truncated so that prefix + separator + segment + the
longest suffix `_LAST_HEALTH` stays within the 60-character record-name
budget, and the truncation is idempotent — provided the prefix overhead
itself fits the budget (`len(prefix) + 1 + 12 ≤ 60`). -/
theorem C8_segment_truncation (pfxLen : Nat) (name seg : List Char)
    (hpfx : pfxLen + 13 ≤ 60) :
    (pfxLen + 1) + (truncSegment pfxLen (normalizeSegment name)).length
        + "_LAST_HEALTH".length ≤ 60 ∧
    truncSegment pfxLen (truncSegment pfxLen seg) = truncSegment pfxLen seg := by
  have h12 : "_LAST_HEALTH".length = 12 := rfl
  have hml : maxSegmentLen pfxLen = 60 - ((pfxLen : Int) + 1) - 12 := by
    rw [maxSegmentLen, h12]
    norm_num
  have hml0 : 0 ≤ maxSegmentLen pfxLen := by
    rw [hml]; omega
  have hplen : ∀ l : List Char,
      (pyTake l (maxSegmentLen pfxLen)).length
        = min (maxSegmentLen pfxLen).toNat l.length := by
    intro l
    rw [pyTake, if_pos hml0]
    simp [List.length_take]
  constructor
  · rw [h12, truncSegment]
    split_ifs with hgt
    · have h1 := hplen (normalizeSegment name)
      have h2 := Nat.min_le_left (maxSegmentLen pfxLen).toNat
        (normalizeSegment name).length
      rw [hml] at *
      omega
    · rw [not_lt, hml] at hgt
      omega
  · by_cases h1 : (seg.length : Int) > maxSegmentLen pfxLen
    · have hinner : truncSegment pfxLen seg
          = pyTake seg (maxSegmentLen pfxLen) := by
        rw [truncSegment, if_pos h1]
      have hcond : ¬ (((pyTake seg (maxSegmentLen pfxLen)).length : Int)
          > maxSegmentLen pfxLen) := by
        rw [not_lt, hplen seg]
        have h2 := Nat.min_le_left (maxSegmentLen pfxLen).toNat seg.length
        omega
      rw [hinner, truncSegment, if_neg hcond]
    · have hinner : truncSegment pfxLen seg = seg := by
        rw [truncSegment, if_neg h1]
      rw [hinner, truncSegment, if_neg h1]

/-- C8 witness: with a 12-character prefix, a 52-character hyphenated
entity name normalizes and truncates to fit the budget, and truncating a
short segment twice equals truncating it once. -/
theorem C8_segment_truncation_witness :
    12 + 13 ≤ 60 ∧
    ((12 + 1) + (truncSegment 12 (normalizeSegment
        "a-very-long-beamline-motor-controller-entity-name-xx".toList)).length
        + "_LAST_HEALTH".length ≤ 60 ∧
     truncSegment 12 (truncSegment 12 "motor-a".toList)
        = truncSegment 12 "motor-a".toList) :=
  ⟨by decide,
   C8_segment_truncation 12
     "a-very-long-beamline-motor-controller-entity-name-xx".toList
     "motor-a".toList (by decide)⟩

/-- C9 counterexample: a tracked service found in the listing with phase
"Running", sync "Synced" and health "Healthy" gets its APP_STATUS
channel set to the derived overall status "HEALTHY", not the verbatim
phase string "Running". -/
theorem C9_counterexample :
    (updateServiceFull (fun _ => none)
        (some ⟨some ⟨some ⟨some "Running", none⟩, some "Synced",
               some "Healthy"⟩⟩)
        ⟨"Unknown", "Unknown", "Unknown", "Never", "Never"⟩
        ⟨none, none⟩ ⟨"Unknown", 2, 4, "Never", "Never"⟩
        "t1").2.2.appStatusPV = "HEALTHY" ∧
    ("HEALTHY" : String) ≠ "Running" := by
  decide

/-- C9 (amended): for a found IOC, the APP_STATUS channel and the
snapshot app_status carry the verbatim phase string from
`status.operationState.phase`, and the snapshot sync_status and
health_status are stored verbatim from the object's sync and health
fields; for a found service the snapshot sync/health are also verbatim,
but the APP_STATUS channel and snapshot app_status carry the derived
overall status (HEALTHY / PROGRESSING / OTHER), not the phase. -/
theorem C9_found_verbatim (fmt : String → Option String)
    (op : OperationState) (ph ss hs : String) (sd : AppStatusData)
    (st : EntityStatus) (mem : HealthMem) (pvs : EntityPVs) (now : String)
    (hop : sd.operationState = some op) (hph : op.phase = some ph)
    (hss : sd.syncStatus = some ss) (hhs : sd.healthStatus = some hs) :
    (updateIocFull fmt (some ⟨some sd⟩) st mem now).2.2.appStatusPV = ph ∧
    (updateIocFull fmt (some ⟨some sd⟩) st mem now).1.appStatus = ph ∧
    (updateIocFull fmt (some ⟨some sd⟩) st mem now).1.syncStatus = ss ∧
    (updateIocFull fmt (some ⟨some sd⟩) st mem now).1.healthStatus = hs ∧
    (updateServiceFull fmt (some ⟨some sd⟩) st mem pvs now).1.syncStatus
      = ss ∧
    (updateServiceFull fmt (some ⟨some sd⟩) st mem pvs now).1.healthStatus
      = hs ∧
    (updateServiceFull fmt (some ⟨some sd⟩) st mem pvs now).2.2.appStatusPV
      = serviceOverall (serviceSyncValue ss) (serviceHealthValue hs) ∧
    (updateServiceFull fmt (some ⟨some sd⟩) st mem pvs now).1.appStatus
      = serviceOverall (serviceSyncValue ss) (serviceHealthValue hs) := by
  have hphase : App.phase ⟨some sd⟩ = ph := by
    simp [App.phase, hop, hph]
  have hsync : App.syncStat ⟨some sd⟩ = ss := by
    simp [App.syncStat, hss]
  have hhealth : App.healthStat ⟨some sd⟩ = hs := by
    simp [App.healthStat, hhs]
  simp only [updateIocFull, updateIocStatus, updateIocPVs,
    updateServiceFull, hphase, hsync, hhealth, ne_eq]
  split_ifs <;> simp

/-- C9 witness: a found application with phase "Running", sync "Synced"
and health "Healthy" puts the verbatim "Running" on the IOC channel and
the derived "HEALTHY" on the service channel. -/
theorem C9_found_verbatim_witness :
    (updateIocFull (fun _ => none)
        (some ⟨some ⟨some ⟨some "Running", none⟩, some "Synced",
               some "Healthy"⟩⟩)
        ⟨"Unknown", "Unknown", "Unknown", "Never", "Never"⟩
        ⟨none, none⟩ "t1").2.2.appStatusPV = "Running" ∧
    (updateServiceFull (fun _ => none)
        (some ⟨some ⟨some ⟨some "Running", none⟩, some "Synced",
               some "Healthy"⟩⟩)
        ⟨"Unknown", "Unknown", "Unknown", "Never", "Never"⟩
        ⟨none, none⟩ ⟨"Unknown", 2, 4, "Never", "Never"⟩
        "t1").2.2.appStatusPV
      = serviceOverall (serviceSyncValue "Synced")
          (serviceHealthValue "Healthy") := by
  have h := C9_found_verbatim (fun _ => none) ⟨some "Running", none⟩
    "Running" "Synced" "Healthy"
    ⟨some ⟨some "Running", none⟩, some "Synced", some "Healthy"⟩
    ⟨"Unknown", "Unknown", "Unknown", "Never", "Never"⟩
    ⟨none, none⟩ ⟨"Unknown", 2, 4, "Never", "Never"⟩ "t1"
    rfl rfl rfl rfl
  exact ⟨h.1, h.2.2.2.2.2.2.1⟩

end IocMng
